import Mathlib

/-!
Shallow embedding of the `db_factory` package (files `db_factory/manager.py`,
`db_factory/operations.py`, `db_factory/common/common.py`).

Modelling conventions:
* Python `str` is Lean `String`; a Python parameter defaulting to `None` is
  `Option String`.  Python truthiness of such a value (`if self.password:`)
  is `truthy`: `none` and `some ""` are falsy.
* Python `dict` (with string keys and values, as the connection secrets are)
  is `PyDict`, an insertion-ordered association list; `pyInsert` has the
  semantics of Python dict assignment: an existing key keeps its position and
  gets the new value, a fresh key is appended.
* `urllib.parse.quote_plus` is `quotePlus`, byte-for-byte on the UTF-8
  encoding of the string (unreserved bytes kept, space to `+`, everything
  else `%XX` with uppercase hex).  `str.upper` / `str.lower` are modelled on
  the ASCII range, which covers every key the package recognises.
* External effects (the cloud secret-manager call, the GCP project lookup,
  the database driver) are oracles passed in as a `world` argument, and the
  side effects the code performs are recorded in an event trace `List Ev`.
* Exceptions are `Except`: a raised `ValueError` is `PyErr.valueError msg`.
-/

/-- Python truthiness of an optional string: `None` and `""` are falsy. -/
def truthy : Option String → Bool
  | none => false
  | some s => s ≠ ""

/-- Python `f"{x}"` for a value that may be `None` (`str(None) = "None"`). -/
def fstr : Option String → String
  | none => "None"
  | some s => s

/-- ASCII uppercase of one character, as `str.upper` acts on ASCII keys. -/
def upChar (c : Char) : Char :=
  if 97 ≤ c.toNat ∧ c.toNat ≤ 122 then Char.ofNat (c.toNat - 32) else c

/-- ASCII lowercase of one character, as `str.lower` acts on ASCII keys. -/
def downChar (c : Char) : Char :=
  if 65 ≤ c.toNat ∧ c.toNat ≤ 90 then Char.ofNat (c.toNat + 32) else c

/-- Re-case a string per the `is_to_upper` flag (`key.upper()` / `key.lower()`). -/
def recase (toUpper : Bool) (s : String) : String :=
  if toUpper then String.mk (s.data.map upChar) else String.mk (s.data.map downChar)

/-- Insertion-ordered association list standing for a Python `dict` of strings. -/
abbrev PyDict := List (String × String)

/-- Keys of a `PyDict`, in insertion order. -/
def keys (d : PyDict) : List String := d.map Prod.fst

/-- Python `d[k] = v`: update in place when the key exists, append otherwise. -/
def pyInsert (d : PyDict) (k v : String) : PyDict :=
  if k ∈ keys d then d.map (fun p => if p.1 = k then (k, v) else p) else d ++ [(k, v)]

/-- Python `d[k]` guarded by `k in d`: the value at `k` when present. -/
def lookup (d : PyDict) (k : String) : Option String :=
  (d.find? (fun p => p.1 == k)).map Prod.snd

/-- Model of `Common.normaize_connection_dict` (common/common.py lines 81-111): the
dict comprehension re-cases every key per `is_to_upper`, building a fresh
dict by sequential insertion. -/
def normaize_connection_dict (connection_dict : PyDict) (is_to_upper : Bool) : PyDict :=
  connection_dict.foldl (fun acc p => pyInsert acc (recase is_to_upper p.1) p.2) []

/-- UTF-8 bytes of one character, as `quote_plus` encodes the bytes of the text. -/
def charUtf8 (c : Char) : List Nat :=
  let n := c.toNat
  if n < 128 then [n]
  else if n < 2048 then [192 + n / 64, 128 + n % 64]
  else if n < 65536 then [224 + n / 4096, 128 + (n / 64) % 64, 128 + n % 64]
  else [240 + n / 262144, 128 + (n / 4096) % 64, 128 + (n / 64) % 64, 128 + n % 64]

/-- Uppercase hexadecimal digit, as `urllib` renders `%XX` escapes. -/
def hexDigit (n : Nat) : Char :=
  if n < 10 then Char.ofNat (48 + n) else Char.ofNat (55 + n)

/-- Bytes `urllib` never quotes: ALPHA, DIGIT, and `_ . - ~`. -/
def isSafeByte (b : Nat) : Bool :=
  (48 ≤ b ∧ b ≤ 57) ∨ (65 ≤ b ∧ b ≤ 90) ∨ (97 ≤ b ∧ b ≤ 122) ∨
    b = 95 ∨ b = 46 ∨ b = 45 ∨ b = 126

/-- Encoding of one byte under `quote_plus`: safe bytes kept, space to `+`,
everything else percent-escaped with uppercase hex. -/
def encodeByte (b : Nat) : List Char :=
  if isSafeByte b then [Char.ofNat b]
  else if b = 32 then [Char.ofNat 43]
  else [Char.ofNat 37, hexDigit (b / 16), hexDigit (b % 16)]

/-- Python `urllib.parse.quote_plus` with its default empty `safe` set, imported as
`urlquote` in manager.py. -/
def quotePlus (s : String) : String :=
  String.mk (((s.data.map charUtf8).flatten).map encodeByte).flatten

/-- POSIX `os.path.join` on two components, as manager.py uses it for sqlite:
the second component wins when absolute, and a separator is added unless the
first component is empty or already ends with one. -/
def pathJoin (a b : String) : String :=
  if b.data.head? = some (Char.ofNat 47) then b
  else if a = "" ∨ a.data.getLast? = some (Char.ofNat 47) then a ++ b
  else a ++ "/" ++ b

/-- Python `str(list_of_str)`, used when the supported-engine list is
interpolated into the error message. -/
def pyStrList (l : List String) : String :=
  "[" ++ String.intercalate ", " (l.map (fun s => "\x27" ++ s ++ "\x27")) ++ "]"

/-- The module constant `SUPPORTED_ENGINE` of manager.py (lines 24-25), in
its source order. -/
def SUPPORTED_ENGINE : List String :=
  ["postgres", "mysql", "mariadb", "snowflake", "bigquery", "sqlite"]

/-- Observable side effects of the embedded code, recorded as a trace. -/
inductive Ev where
  /-- Event: `Common.get_secret` reached out to the cloud secret manager. -/
  | fetchSecret : Ev
  /-- Event: `Operations.__init__` obtained a session handle by calling the
  scoped-session factory (`self.session = session()`). -/
  | acquireSession : Ev
  /-- Event: `panda_df.to_sql(...)` wrote the dataframe through the session bind. -/
  | toSql : Ev
  /-- Event: `self.session.commit()`. -/
  | commit : Ev
  /-- Event: `self.session.execute(sql)`. -/
  | executeSql : Ev
  /-- Event: `pandas.read_sql(...)` through the session bind. -/
  | readSql : Ev
  /-- Event: `self.session.close()` in the `finally` block. -/
  | close : Ev
deriving DecidableEq, Repr

/-- A raised Python exception, by kind and message. -/
inductive PyErr where
  | valueError (msg : String) : PyErr
  | external (msg : String) : PyErr
deriving DecidableEq, Repr

/-- Failure modes of the cloud secret fetch (the external capability). -/
inductive SecretErr where
  | secretNotFound : SecretErr
  | accessDenied : SecretErr
  | providerUnavailable : SecretErr
deriving DecidableEq, Repr

/-- The fields of `DatabaseManager` that `fetch_from_secret` and `create_uri`
read and write (manager.py lines 134-147).  Required string parameters are
`String`; parameters defaulting to `None` are `Option String`. -/
structure DbState where
  engine_type : String
  database : String
  sqlite_db_path : String
  username : Option String
  password : Option String
  schema : Option String
  host : Option String
  port : Option String
  snowflake_role : Option String
  snowflake_account : Option String
  snowflake_warehouse : Option String
  secret_id : Option String
  secrete_manager_cloud : Option String
  aws_region : String
deriving DecidableEq, Repr

deriving instance DecidableEq for Except

/-- The external environment of one `create_uri` call: the outcome the cloud
secret manager would give, and the GCP identity data the bigquery branch
reads. -/
structure ManagerWorld where
  /-- Result of `Common.get_secret`: the decoded secret dict, or the raised
  provider error. -/
  fetchResult : Except SecretErr PyDict
  /-- Value of `os.environ.get("GOOGLE_APPLICATION_CREDENTIALS")`: absent, or present
  with the given (possibly empty) value. -/
  envGoogleCreds : Option String
  /-- Project name returned by `GcpAuthManager.get_project_name()`. -/
  gcpProject : String
deriving DecidableEq, Repr

/-- Model of `DatabaseManager.fetch_from_secret` (manager.py lines 151-178): the cloud
fetch is attempted only when both `secret_id` and `secrete_manager_cloud` are
truthy, and a raised fetch error is caught, logged, and swallowed, leaving
`secret = None`. -/
def fetch_from_secret (st : DbState) (w : ManagerWorld) :
    Option PyDict × List Ev :=
  if truthy st.secret_id ∧ truthy st.secrete_manager_cloud then
    match w.fetchResult with
    | .ok d => (some d, [Ev.fetchSecret])
    | .error _ => (none, [Ev.fetchSecret])
  else (none, [])

/-- Statement `if "USERNAME" in secret: self.username = secret["USERNAME"]`
(manager.py lines 211-212). -/
def stepUsername (st : DbState) (s : PyDict) : DbState :=
  match lookup s "USERNAME" with
  | some v => { st with username := some v }
  | none => st

/-- Statement `if "PASSWORD" in secret: self.password = secret["PASSWORD"]`
(manager.py lines 213-214). -/
def stepPassword (st : DbState) (s : PyDict) : DbState :=
  match lookup s "PASSWORD" with
  | some v => { st with password := some v }
  | none => st

/-- Statement `if "SCHEMA" in secret: self.schema = secret["SCHEMA"]`
(manager.py lines 215-216). -/
def stepSchema (st : DbState) (s : PyDict) : DbState :=
  match lookup s "SCHEMA" with
  | some v => { st with schema := some v }
  | none => st

/-- Statement `if "HOST" in secret: self.host = secret["HOST"]`
(manager.py lines 217-218). -/
def stepHost (st : DbState) (s : PyDict) : DbState :=
  match lookup s "HOST" with
  | some v => { st with host := some v }
  | none => st

/-- Statement `if "PORT" in secret: self.port = secret["PORT"]`
(manager.py lines 219-220). -/
def stepPort (st : DbState) (s : PyDict) : DbState :=
  match lookup s "PORT" with
  | some v => { st with port := some v }
  | none => st

/-- Statement `if "SNOWFLAKE_ROLE" in secret: ...` (manager.py lines 221-222). -/
def stepSnowflakeRole (st : DbState) (s : PyDict) : DbState :=
  match lookup s "SNOWFLAKE_ROLE" with
  | some v => { st with snowflake_role := some v }
  | none => st

/-- Statement `if "SNOWFLAKE_ACCOUNT" in secret: ...` (manager.py lines 223-224). -/
def stepSnowflakeAccount (st : DbState) (s : PyDict) : DbState :=
  match lookup s "SNOWFLAKE_ACCOUNT" with
  | some v => { st with snowflake_account := some v }
  | none => st

/-- Statement `if "SNOWFLAKE_WAREHOUSE" in secret: ...` (manager.py lines 225-226). -/
def stepSnowflakeWarehouse (st : DbState) (s : PyDict) : DbState :=
  match lookup s "SNOWFLAKE_WAREHOUSE" with
  | some v => { st with snowflake_warehouse := some v }
  | none => st

/-- The eight override statements of manager.py lines 211-226, applied in
their source order to an already-normalized secret dict. -/
def applyNormalized (st : DbState) (s : PyDict) : DbState :=
  stepSnowflakeWarehouse (stepSnowflakeAccount (stepSnowflakeRole (stepPort
    (stepHost (stepSchema (stepPassword (stepUsername st s) s) s) s) s) s) s) s

/-- The secret-merge block of `create_uri` (manager.py lines 207-226): the
fetched dict is key-normalized to upper case, then each recognized field
present in it overwrites the corresponding manager field. -/
def applySecret (st : DbState) (secret : PyDict) : DbState :=
  applyNormalized st (normaize_connection_dict secret true)

/-- The connection identifier `create_uri` hands to the session layer: a
plain string for the string-built branches, and, for snowflake, the field
bundle passed to the vendor URL builder (an external collaborator kept
opaque). -/
inductive Uri where
  | plain (s : String) : Uri
  | snowflakeURL (account user password : Option String) (database : String)
      (schema warehouse role : Option String) : Uri
deriving DecidableEq, Repr

/-- Full outcome of one `create_uri` call: the returned triple (or raised
exception), the manager state after the call (the method mutates `self`),
and the trace of external effects. -/
structure UriResult where
  res : Except PyErr (Uri × Option PyDict × Bool)
  state : DbState
  trace : List Ev
deriving DecidableEq, Repr

/-- The `if secret:` guard of `create_uri` (manager.py line 207): the merge
runs only when the fetch produced a truthy (non-`None`, non-empty) dict. -/
def mergeSecret (st : DbState) (fetched : Option PyDict) : DbState :=
  match fetched with
  | some s => if s.isEmpty then st else applySecret st s
  | none => st

/-- Lines 228-229 of manager.py: a truthy password is percent-encoded and
written back into the manager field (`self.password = urlquote(self.password)`). -/
def encodePassword (st : DbState) : DbState :=
  match st.password with
  | some pw => if pw ≠ "" then { st with password := some (quotePlus pw) } else st
  | none => st

/-- The engine dispatch of `create_uri` (manager.py lines 236-268), applied
to the post-merge, post-encoding state.  The final branch is reached exactly
for `bigquery`, the only member of `SUPPORTED_ENGINE` the earlier branches
do not test. -/
def buildUri (st2 : DbState) (w : ManagerWorld) (tr : List Ev) : UriResult :=
  if st2.engine_type = "sqlite" then
    { res := .ok (.plain ("sqlite:///" ++
        pathJoin st2.sqlite_db_path (st2.database ++ ".db")), none, false),
      state := st2, trace := tr }
  else if st2.engine_type = "postgres" then
    { res := .ok (.plain ("postgres+pg8000://" ++ fstr st2.username ++ ":" ++
        fstr st2.password ++ "@" ++ fstr st2.host ++ ":" ++ fstr st2.port ++
        "/" ++ st2.database), some [("client_encoding", "utf8")], true),
      state := st2, trace := tr }
  else if st2.engine_type = "mysql" ∨ st2.engine_type = "mariadb" then
    { res := .ok (.plain ("mysql+pymysql://" ++ fstr st2.username ++ ":" ++
        fstr st2.password ++ "@" ++ fstr st2.host ++ ":" ++ fstr st2.port ++
        "/" ++ st2.database ++ "?charset=utf8mb4"), none, false),
      state := st2, trace := tr }
  else if st2.engine_type = "snowflake" then
    { res := .ok (.snowflakeURL st2.snowflake_account st2.username
        st2.password st2.database st2.schema st2.snowflake_warehouse
        st2.snowflake_role, none, false),
      state := st2, trace := tr }
  else
    { res := .ok (.plain ("bigquery://" ++ w.gcpProject ++ "/" ++ st2.database),
        (match w.envGoogleCreds with | some "" => none | x => x).map
          (fun p => [("credentials_path", p)]), false),
      state := st2, trace := tr }

/-- Model of `DatabaseManager.create_uri` (manager.py lines 180-268).  Steps, in
source order: reject an unsupported `engine_type`; fetch the secret (errors
swallowed by `fetch_from_secret`); merge a truthy secret dict into the
manager fields; percent-encode a truthy password in place; dispatch on the
engine to build the identifier, extra options, and the dialect flag. -/
def create_uri (st : DbState) (w : ManagerWorld) : UriResult :=
  if st.engine_type ∉ SUPPORTED_ENGINE then
    { res := .error (.valueError ("Unsupported engine \x27" ++ st.engine_type ++
        "\x27. Supported are \x27" ++ pyStrList SUPPORTED_ENGINE ++ "\x27")),
      state := st, trace := [] }
  else
    match fetch_from_secret st w with
    | (sec, tr) => buildUri (encodePassword (mergeSecret st sec)) w tr

/-- A Pandas DataFrame reduced to what `Operations.execute` observes: its
rows (`isinstance` holds for the value, `len` is the row count). -/
abbrev Df := List (List String)

/-- What the database gives back for `self.session.execute(sql)`: either a
row-returning result (`result.returns_rows` true, with the fetched rows) or
a row-less one. -/
inductive ExecOut where
  | rows (r : Df) : ExecOut
  | noRows : ExecOut
deriving DecidableEq, Repr

/-- The external database behaviour during one `Operations.execute` call:
the outcome of each driver-level operation the call might perform. -/
structure OpsWorld where
  /-- Outcome of `panda_df.to_sql(...)`. -/
  toSqlResult : Except String Unit
  /-- Outcome of `self.session.execute(sql)` (with the fetch folded in). -/
  sqlExecResult : Except String ExecOut
  /-- Outcome of `pandas.read_sql(...)`. -/
  readSqlResult : Except String Df
deriving DecidableEq, Repr

/-- Value returned by `Operations.execute` when it is not `None`: fetched
rows, or the dataframe `pandas.read_sql` built. -/
inductive RetVal where
  | rows (r : Df) : RetVal
  | df (r : Df) : RetVal
deriving DecidableEq, Repr

namespace Operations

/-- Model of `Operations.__init__` followed by `Operations.execute` (operations.py
lines 33-46 and 48-141), the way `DatabaseManager.execute_sql`,
`execute_df` and `get_df` invoke the pair.  The constructor obtains a
session handle from the scoped-session factory (`Ev.acquireSession`); the
body branches on the dataframe first, then on a truthy `sql`; the `finally`
block closes the session on every exit path, so `Ev.close` ends the trace
whether the result is a return or a raised exception. -/
def execute (sql : Option String) (panda_df : Option Df)
    (table_name : Option String) (chunk_size : Option Nat)
    (exist_action : String) (get_df : Bool) (w : OpsWorld) :
    Except PyErr (Option RetVal) × List Ev :=
  let body : Except PyErr (Option RetVal) × List Ev :=
    match panda_df with
    | some d =>
      if d.length ≠ 0 then
        match w.toSqlResult with
        | .ok _ => (.ok none, [Ev.toSql, Ev.commit])
        | .error e => (.error (.external e), [Ev.toSql])
      else (.error (.valueError "Invalid DataFrame"), [])
    | none =>
      if truthy sql then
        if get_df then
          match w.readSqlResult with
          | .ok r => (.ok (some (.df r)), [Ev.readSql])
          | .error e => (.error (.external e), [Ev.readSql])
        else
          match w.sqlExecResult with
          | .ok (.rows r) => (.ok (some (.rows r)), [Ev.executeSql])
          | .ok .noRows => (.ok none, [Ev.executeSql, Ev.commit])
          | .error e => (.error (.external e), [Ev.executeSql])
      else (.error (.valueError "No DDL or DML quesries to execute"), [])
  (body.1, Ev.acquireSession :: body.2 ++ [Ev.close])

end Operations


/-! ### Concrete fixtures used by the closed theorems -/

/-- The literal postgres parameter set of the spec: username `u`, password
`p@ss`, host `h`, port `5432`, database `d`, no secret id. -/
def pgState : DbState :=
  { engine_type := "postgres", database := "d", sqlite_db_path := "/home/user",
    username := some "u", password := some "p@ss", schema := some "public",
    host := some "h", port := some "5432", snowflake_role := none,
    snowflake_account := none, snowflake_warehouse := none, secret_id := none,
    secrete_manager_cloud := some "aws", aws_region := "us-east-1" }

/-- An environment in which no secret exists and no GCP credentials file is
set; irrelevant for runs that never reach those collaborators. -/
def noSecretWorld : ManagerWorld :=
  { fetchResult := .ok [], envGoogleCreds := none, gcpProject := "proj" }

/-- The literal sqlite parameter set of the spec (database `mydb`, path
`/tmp`), with the username and password left as parameters. -/
def sqliteState (u p : Option String) : DbState :=
  { pgState with
    engine_type := "sqlite"
    database := "mydb"
    sqlite_db_path := "/tmp"
    username := u
    password := p }

/-- State `pgState` with a secret id set, so that resolution attempts the fetch. -/
def pgSecretState : DbState := { pgState with secret_id := some "sid" }

/-- An environment whose secret fetch raises `SecretNotFound`. -/
def notFoundWorld : ManagerWorld :=
  { noSecretWorld with fetchResult := .error .secretNotFound }

/-- State `pgState` with an unsupported engine value. -/
def oracleState : DbState := { pgState with engine_type := "oracle" }

/-- A database world in which every driver operation succeeds and a plain
statement returns no rows. -/
def okOpsWorld : OpsWorld :=
  { toSqlResult := .ok (), sqlExecResult := .ok .noRows, readSqlResult := .ok [] }

/-- A database world in which the executed statement is row-returning. -/
def rowsOpsWorld : OpsWorld :=
  { okOpsWorld with sqlExecResult := .ok (.rows [["r1c1"]]) }

/-! ### Properties of the key normalizer -/

lemma toNat_ofNat_valid (n : Nat) (h : n.isValidChar) : (Char.ofNat n).toNat = n := by
  simp [Char.ofNat, h, Char.ofNatAux, Char.toNat, UInt32.toNat, BitVec.toNat_ofNatLt]

lemma upChar_idem (c : Char) : upChar (upChar c) = upChar c := by
  unfold upChar
  by_cases h : 97 ≤ c.toNat ∧ c.toNat ≤ 122
  · rw [if_pos h]
    have hv : Nat.isValidChar (c.toNat - 32) := Or.inl (by omega)
    have ht : (Char.ofNat (c.toNat - 32)).toNat = c.toNat - 32 := toNat_ofNat_valid _ hv
    rw [if_neg (by rw [ht]; omega)]
  · rw [if_neg h, if_neg h]

lemma downChar_idem (c : Char) : downChar (downChar c) = downChar c := by
  unfold downChar
  by_cases h : 65 ≤ c.toNat ∧ c.toNat ≤ 90
  · rw [if_pos h]
    have hv : Nat.isValidChar (c.toNat + 32) := Or.inl (by omega)
    have ht : (Char.ofNat (c.toNat + 32)).toNat = c.toNat + 32 := toNat_ofNat_valid _ hv
    rw [if_neg (by rw [ht]; omega)]
  · rw [if_neg h, if_neg h]

lemma map_upChar_idem (l : List Char) : (l.map upChar).map upChar = l.map upChar := by
  rw [List.map_map]
  apply List.map_congr_left
  intro a _
  simp [Function.comp, upChar_idem]

lemma map_downChar_idem (l : List Char) : (l.map downChar).map downChar = l.map downChar := by
  rw [List.map_map]
  apply List.map_congr_left
  intro a _
  simp [Function.comp, downChar_idem]

lemma recase_recase (b : Bool) (s : String) : recase b (recase b s) = recase b s := by
  cases b
  · show String.mk ((s.data.map downChar).map downChar) = String.mk (s.data.map downChar)
    rw [map_downChar_idem]
  · show String.mk ((s.data.map upChar).map upChar) = String.mk (s.data.map upChar)
    rw [map_upChar_idem]

lemma keys_pyInsert (d : PyDict) (k v : String) :
    keys (pyInsert d k v) = if k ∈ keys d then keys d else keys d ++ [k] := by
  unfold pyInsert
  split
  · unfold keys
    rw [List.map_map]
    apply List.map_congr_left
    intro p _
    by_cases hp : p.1 = k
    · simp [Function.comp, hp]
    · simp [Function.comp, hp]
  · unfold keys
    simp

lemma pyInsert_fresh (d : PyDict) (k v : String) (h : k ∉ keys d) :
    pyInsert d k v = d ++ [(k, v)] := by
  unfold pyInsert
  rw [if_neg h]

lemma foldl_pyInsert_fresh (b : Bool) (d : PyDict) : ∀ acc : PyDict,
    (keys acc ++ d.map (fun p => recase b p.1)).Nodup →
    d.foldl (fun acc p => pyInsert acc (recase b p.1) p.2) acc
      = acc ++ d.map (fun p => (recase b p.1, p.2)) := by
  induction d with
  | nil => intro acc _; simp
  | cons p t ih =>
    intro acc h
    have hmem : recase b p.1 ∉ keys acc := by
      rw [List.nodup_append] at h
      exact fun hc => h.2.2 hc (by simp)
    rw [List.foldl_cons, pyInsert_fresh _ _ _ hmem, ih]
    · simp
    · have : keys (acc ++ [(recase b p.1, p.2)]) ++ t.map (fun p => recase b p.1)
          = keys acc ++ (p :: t).map (fun p => recase b p.1) := by
        unfold keys
        simp
      rw [this]
      exact h

lemma normaize_eq_map (d : PyDict) (b : Bool)
    (h : (d.map (fun p => recase b p.1)).Nodup) :
    normaize_connection_dict d b = d.map (fun p => (recase b p.1, p.2)) := by
  unfold normaize_connection_dict
  rw [foldl_pyInsert_fresh b d [] (by simpa [keys] using h)]
  simp

lemma nodup_keys_pyInsert (d : PyDict) (k v : String) (h : (keys d).Nodup) :
    (keys (pyInsert d k v)).Nodup := by
  rw [keys_pyInsert]
  split
  · exact h
  · next hneg =>
    rw [List.nodup_append]
    refine ⟨h, List.nodup_singleton k, ?_⟩
    intro x hx hx2
    simp at hx2
    subst hx2
    exact hneg hx

lemma mem_keys_pyInsert {d : PyDict} {k v a : String} (h : a ∈ keys (pyInsert d k v)) :
    a ∈ keys d ∨ a = k := by
  rw [keys_pyInsert] at h
  split at h
  · exact Or.inl h
  · rcases List.mem_append.mp h with h' | h'
    · exact Or.inl h'
    · simp at h'
      exact Or.inr h'

lemma foldl_keys_nodup (b : Bool) (d : PyDict) : ∀ acc : PyDict, (keys acc).Nodup →
    (keys (d.foldl (fun acc p => pyInsert acc (recase b p.1) p.2) acc)).Nodup := by
  induction d with
  | nil => intro acc h; exact h
  | cons p t ih =>
    intro acc h
    rw [List.foldl_cons]
    exact ih _ (nodup_keys_pyInsert _ _ _ h)

lemma foldl_keys_fixed (b : Bool) (d : PyDict) : ∀ acc : PyDict,
    (∀ a ∈ keys acc, recase b a = a) →
    ∀ a ∈ keys (d.foldl (fun acc p => pyInsert acc (recase b p.1) p.2) acc),
      recase b a = a := by
  induction d with
  | nil => intro acc h; exact h
  | cons p t ih =>
    intro acc h
    rw [List.foldl_cons]
    apply ih
    intro a ha
    rcases mem_keys_pyInsert ha with h' | h'
    · exact h a h'
    · subst h'
      exact recase_recase b p.1

lemma normaize_keys_nodup (d : PyDict) (b : Bool) :
    (keys (normaize_connection_dict d b)).Nodup := by
  unfold normaize_connection_dict
  exact foldl_keys_nodup b d [] (by simp [keys])

lemma normaize_keys_fixed (d : PyDict) (b : Bool) :
    ∀ a ∈ keys (normaize_connection_dict d b), recase b a = a := by
  unfold normaize_connection_dict
  exact foldl_keys_fixed b d [] (by simp [keys])

lemma normaize_idem (d : PyDict) (b : Bool) :
    normaize_connection_dict (normaize_connection_dict d b) b
      = normaize_connection_dict d b := by
  have hfix : ∀ a ∈ keys (normaize_connection_dict d b), recase b a = a :=
    normaize_keys_fixed d b
  have hmap : (normaize_connection_dict d b).map (fun p => recase b p.1)
      = keys (normaize_connection_dict d b) := by
    unfold keys
    apply List.map_congr_left
    intro p hp
    exact hfix p.1 (List.mem_map_of_mem Prod.fst hp)
  rw [normaize_eq_map _ b (by rw [hmap]; exact normaize_keys_nodup d b)]
  have : ∀ p ∈ normaize_connection_dict d b,
      (fun p : String × String => (recase b p.1, p.2)) p = id p := by
    intro p hp
    simp [hfix p.1 (List.mem_map_of_mem Prod.fst hp)]
  rw [List.map_congr_left this, List.map_id]


lemma stepUsername_eq (st : DbState) (s : PyDict) :
    stepUsername st s = { st with username := (lookup s "USERNAME").or st.username } := by
  unfold stepUsername
  cases lookup s "USERNAME" <;> rfl

lemma stepPassword_eq (st : DbState) (s : PyDict) :
    stepPassword st s = { st with password := (lookup s "PASSWORD").or st.password } := by
  unfold stepPassword
  cases lookup s "PASSWORD" <;> rfl

lemma stepSchema_eq (st : DbState) (s : PyDict) :
    stepSchema st s = { st with schema := (lookup s "SCHEMA").or st.schema } := by
  unfold stepSchema
  cases lookup s "SCHEMA" <;> rfl

lemma stepHost_eq (st : DbState) (s : PyDict) :
    stepHost st s = { st with host := (lookup s "HOST").or st.host } := by
  unfold stepHost
  cases lookup s "HOST" <;> rfl

lemma stepPort_eq (st : DbState) (s : PyDict) :
    stepPort st s = { st with port := (lookup s "PORT").or st.port } := by
  unfold stepPort
  cases lookup s "PORT" <;> rfl

lemma stepSnowflakeRole_eq (st : DbState) (s : PyDict) :
    stepSnowflakeRole st s
      = { st with snowflake_role := (lookup s "SNOWFLAKE_ROLE").or st.snowflake_role } := by
  unfold stepSnowflakeRole
  cases lookup s "SNOWFLAKE_ROLE" <;> rfl

lemma stepSnowflakeAccount_eq (st : DbState) (s : PyDict) :
    stepSnowflakeAccount st s
      = { st with snowflake_account := (lookup s "SNOWFLAKE_ACCOUNT").or st.snowflake_account } := by
  unfold stepSnowflakeAccount
  cases lookup s "SNOWFLAKE_ACCOUNT" <;> rfl

lemma stepSnowflakeWarehouse_eq (st : DbState) (s : PyDict) :
    stepSnowflakeWarehouse st s
      = { st with snowflake_warehouse := (lookup s "SNOWFLAKE_WAREHOUSE").or st.snowflake_warehouse } := by
  unfold stepSnowflakeWarehouse
  cases lookup s "SNOWFLAKE_WAREHOUSE" <;> rfl

lemma applyNormalized_eq (st : DbState) (s : PyDict) :
    applyNormalized st s =
      { st with
        username := (lookup s "USERNAME").or st.username,
        password := (lookup s "PASSWORD").or st.password,
        schema := (lookup s "SCHEMA").or st.schema,
        host := (lookup s "HOST").or st.host,
        port := (lookup s "PORT").or st.port,
        snowflake_role := (lookup s "SNOWFLAKE_ROLE").or st.snowflake_role,
        snowflake_account := (lookup s "SNOWFLAKE_ACCOUNT").or st.snowflake_account,
        snowflake_warehouse := (lookup s "SNOWFLAKE_WAREHOUSE").or st.snowflake_warehouse } := by
  unfold applyNormalized
  rw [stepUsername_eq, stepPassword_eq, stepSchema_eq, stepHost_eq, stepPort_eq,
    stepSnowflakeRole_eq, stepSnowflakeAccount_eq, stepSnowflakeWarehouse_eq]

lemma applySecret_eq (st : DbState) (d : PyDict) :
    applySecret st d =
      { st with
        username := (lookup (normaize_connection_dict d true) "USERNAME").or st.username,
        password := (lookup (normaize_connection_dict d true) "PASSWORD").or st.password,
        schema := (lookup (normaize_connection_dict d true) "SCHEMA").or st.schema,
        host := (lookup (normaize_connection_dict d true) "HOST").or st.host,
        port := (lookup (normaize_connection_dict d true) "PORT").or st.port,
        snowflake_role :=
          (lookup (normaize_connection_dict d true) "SNOWFLAKE_ROLE").or st.snowflake_role,
        snowflake_account :=
          (lookup (normaize_connection_dict d true) "SNOWFLAKE_ACCOUNT").or st.snowflake_account,
        snowflake_warehouse :=
          (lookup (normaize_connection_dict d true) "SNOWFLAKE_WAREHOUSE").or
            st.snowflake_warehouse } := by
  unfold applySecret
  exact applyNormalized_eq st (normaize_connection_dict d true)

lemma mergeSecret_engine_type (st : DbState) (sec : Option PyDict) :
    (mergeSecret st sec).engine_type = st.engine_type := by
  unfold mergeSecret
  rcases sec with _ | s
  · rfl
  · dsimp only
    split
    · rfl
    · rw [applySecret_eq]

lemma mergeSecret_database (st : DbState) (sec : Option PyDict) :
    (mergeSecret st sec).database = st.database := by
  unfold mergeSecret
  rcases sec with _ | s
  · rfl
  · dsimp only
    split
    · rfl
    · rw [applySecret_eq]

lemma mergeSecret_sqlite_db_path (st : DbState) (sec : Option PyDict) :
    (mergeSecret st sec).sqlite_db_path = st.sqlite_db_path := by
  unfold mergeSecret
  rcases sec with _ | s
  · rfl
  · dsimp only
    split
    · rfl
    · rw [applySecret_eq]

lemma encodePassword_engine_type (st : DbState) :
    (encodePassword st).engine_type = st.engine_type := by
  unfold encodePassword
  rcases h : st.password with _ | pw
  · rfl
  · dsimp only
    split <;> rfl

lemma encodePassword_database (st : DbState) :
    (encodePassword st).database = st.database := by
  unfold encodePassword
  rcases h : st.password with _ | pw
  · rfl
  · dsimp only
    split <;> rfl

lemma encodePassword_sqlite_db_path (st : DbState) :
    (encodePassword st).sqlite_db_path = st.sqlite_db_path := by
  unfold encodePassword
  rcases h : st.password with _ | pw
  · rfl
  · dsimp only
    split <;> rfl

lemma buildUri_fetchResult_irrel (st2 : DbState) (w : ManagerWorld)
    (x : Except SecretErr PyDict) (tr : List Ev) :
    buildUri st2 { w with fetchResult := x } tr = buildUri st2 w tr := rfl

lemma create_uri_sqlite (st : DbState) (w : ManagerWorld) (h : st.engine_type = "sqlite") :
    (create_uri st w).res = .ok (.plain ("sqlite:///" ++
      pathJoin st.sqlite_db_path (st.database ++ ".db")), none, false) := by
  unfold create_uri
  rw [if_neg (by rw [h]; decide)]
  rcases hf : fetch_from_secret st w with ⟨sec, tr⟩
  dsimp only
  have he : (encodePassword (mergeSecret st sec)).engine_type = "sqlite" := by
    rw [encodePassword_engine_type, mergeSecret_engine_type, h]
  unfold buildUri
  rw [if_pos he]
  dsimp only
  rw [encodePassword_sqlite_db_path, mergeSecret_sqlite_db_path,
    encodePassword_database, mergeSecret_database]

lemma fetch_error_create_uri (st : DbState) (w : ManagerWorld) (e : SecretErr)
    (hw : w.fetchResult = .error e) :
    create_uri st w = create_uri st { w with fetchResult := .ok [] } := by
  unfold create_uri
  by_cases hg : st.engine_type ∉ SUPPORTED_ENGINE
  · rw [if_pos hg, if_pos hg]
  · rw [if_neg hg, if_neg hg]
    unfold fetch_from_secret
    rw [hw]
    by_cases ht : truthy st.secret_id ∧ truthy st.secrete_manager_cloud
    · rw [if_pos ht, if_pos ht]
      dsimp only
      exact (buildUri_fetchResult_irrel _ w (.ok []) _).symm
    · rw [if_neg ht, if_neg ht]
      dsimp only
      exact (buildUri_fetchResult_irrel _ w (.ok []) _).symm

/-! ### Length and character facts about the percent encoder -/

lemma char_toNat_lt (c : Char) : c.toNat < 1114112 := by
  rcases c.valid with h | ⟨h1, h2⟩
  · have he : c.toNat = c.val.toNat := rfl
    omega
  · have he : c.toNat = c.val.toNat := rfl
    omega

lemma length_le_sum_map (l : List α) (g : α → Nat) (h : ∀ a ∈ l, 1 ≤ g a) :
    l.length ≤ (l.map g).sum := by
  induction l with
  | nil => simp
  | cons a t ih =>
    simp only [List.length_cons, List.map_cons, List.sum_cons]
    have ha := h a (List.mem_cons_self a t)
    have ht := ih (fun x hx => h x (List.mem_cons_of_mem _ hx))
    omega

lemma length_lt_sum_map (l : List α) (g : α → Nat) (h : ∀ a ∈ l, 1 ≤ g a)
    (h3 : ∃ a ∈ l, 3 ≤ g a) : l.length < (l.map g).sum := by
  induction l with
  | nil => simp at h3
  | cons a t ih =>
    simp only [List.length_cons, List.map_cons, List.sum_cons]
    rcases h3 with ⟨x, hxl, hx3⟩
    rcases List.mem_cons.mp hxl with rfl | hxt
    · have ht := length_le_sum_map t g (fun y hy => h y (List.mem_cons_of_mem _ hy))
      omega
    · have ht := ih (fun y hy => h y (List.mem_cons_of_mem _ hy)) ⟨x, hxt, hx3⟩
      have ha := h a (List.mem_cons_self a t)
      omega

lemma length_le_flatten_map (l : List α) (f : α → List β)
    (h : ∀ a ∈ l, 1 ≤ (f a).length) : l.length ≤ ((l.map f).flatten).length := by
  rw [List.length_flatten, List.map_map]
  exact length_le_sum_map l _ h

lemma length_lt_flatten_map (l : List α) (f : α → List β)
    (h : ∀ a ∈ l, 1 ≤ (f a).length) (h3 : ∃ a ∈ l, 3 ≤ (f a).length) :
    l.length < ((l.map f).flatten).length := by
  rw [List.length_flatten, List.map_map]
  exact length_lt_sum_map l _ h h3

lemma one_le_charUtf8_length (c : Char) : 1 ≤ (charUtf8 c).length := by
  unfold charUtf8
  dsimp only
  split
  · simp
  · split
    · simp
    · split <;> simp

lemma one_le_encodeByte_length (b : Nat) : 1 ≤ (encodeByte b).length := by
  unfold encodeByte
  split
  · simp
  · split <;> simp

lemma quotePlus_data_length_ge (s : String) :
    s.data.length ≤ (quotePlus s).data.length := by
  show s.data.length ≤ (((s.data.map charUtf8).flatten).map encodeByte).flatten.length
  calc s.data.length ≤ ((s.data.map charUtf8).flatten).length :=
        length_le_flatten_map _ _ (fun c _ => one_le_charUtf8_length c)
    _ ≤ (((s.data.map charUtf8).flatten).map encodeByte).flatten.length :=
        length_le_flatten_map _ _ (fun b _ => one_le_encodeByte_length b)

lemma quotePlus_ne_empty (s : String) (h : s ≠ "") : quotePlus s ≠ "" := by
  intro he
  apply h
  have hlen := quotePlus_data_length_ge s
  rw [he] at hlen
  rcases s with ⟨l⟩
  have : l.length = 0 := by
    simpa using hlen
  rw [List.length_eq_zero] at this
  rw [this]

lemma hexDigit_toNat_lt (m : Nat) (hm : m < 16) : (hexDigit m).toNat < 128 := by
  unfold hexDigit
  split
  · rw [toNat_ofNat_valid _ (Or.inl (by omega))]
    omega
  · rw [toNat_ofNat_valid _ (Or.inl (by omega))]
    omega

lemma charUtf8_lt_256 (c : Char) (b : Nat) (hb : b ∈ charUtf8 c) : b < 256 := by
  have hc := char_toNat_lt c
  unfold charUtf8 at hb
  dsimp only at hb
  split at hb
  · simp at hb
    omega
  · split at hb
    · simp at hb
      rcases hb with rfl | rfl <;> omega
    · split at hb
      · simp at hb
        rcases hb with rfl | rfl | rfl <;> omega
      · simp at hb
        rcases hb with rfl | rfl | rfl | rfl <;> omega

lemma ascii_encodeByte (b : Nat) (hb : b < 256) (c : Char) (hc : c ∈ encodeByte b) :
    c.toNat < 128 := by
  unfold encodeByte at hc
  split at hc
  · next hsafe =>
    simp at hc
    subst hc
    have hb' : b < 128 := by
      simp [isSafeByte] at hsafe
      omega
    rw [toNat_ofNat_valid b (Or.inl (by omega))]
    omega
  · split at hc
    · simp at hc
      subst hc
      decide
    · simp at hc
      rcases hc with rfl | rfl | rfl
      · decide
      · exact hexDigit_toNat_lt (b / 16) (by omega)
      · exact hexDigit_toNat_lt (b % 16) (by omega)

lemma quotePlus_data_ascii (s : String) : ∀ c ∈ (quotePlus s).data, c.toNat < 128 := by
  intro c hc
  have hc2 : c ∈ (((s.data.map charUtf8).flatten).map encodeByte).flatten := hc
  rcases List.mem_flatten.mp hc2 with ⟨lb, hlb, hcl⟩
  rcases List.mem_map.mp hlb with ⟨b, hbmem, rfl⟩
  rcases List.mem_flatten.mp hbmem with ⟨bl, hbl, hbm⟩
  rcases List.mem_map.mp hbl with ⟨ch, hch, rfl⟩
  exact ascii_encodeByte b (charUtf8_lt_256 ch b hbm) c hcl

lemma flatten_charUtf8_ascii (l : List Char) (h : ∀ c ∈ l, c.toNat < 128) :
    (l.map charUtf8).flatten = l.map Char.toNat := by
  induction l with
  | nil => rfl
  | cons c t ih =>
    simp only [List.map_cons, List.flatten_cons]
    rw [ih (fun x hx => h x (List.mem_cons_of_mem _ hx))]
    have hc : charUtf8 c = [c.toNat] := by
      unfold charUtf8
      dsimp only
      rw [if_pos (h c (List.mem_cons_self c t))]
    rw [hc]
    rfl

lemma percent_mem_quotePlus (s : String) (h : ('@' : Char) ∈ s.data) :
    ('%' : Char) ∈ (quotePlus s).data := by
  show ('%' : Char) ∈ (((s.data.map charUtf8).flatten).map encodeByte).flatten
  apply List.mem_flatten.mpr
  refine ⟨encodeByte 64, List.mem_map_of_mem _ ?_, by decide⟩
  apply List.mem_flatten.mpr
  exact ⟨charUtf8 (Char.ofNat 64), List.mem_map_of_mem _ (by simpa using h), by decide⟩

lemma quotePlus_data_length_lt (t : String) (hascii : ∀ c ∈ t.data, c.toNat < 128)
    (hp : ('%' : Char) ∈ t.data) : t.data.length < (quotePlus t).data.length := by
  show t.data.length < (((t.data.map charUtf8).flatten).map encodeByte).flatten.length
  rw [flatten_charUtf8_ascii t.data hascii, List.map_map]
  apply length_lt_flatten_map
  · intro c hc
    exact one_le_encodeByte_length _
  · exact ⟨Char.ofNat 37, by simpa using hp, by decide⟩

lemma create_uri_postgres_nosecret (st : DbState) (w : ManagerWorld) (pw : String)
    (heng : st.engine_type = "postgres") (hsec : st.secret_id = none)
    (hpw : st.password = some pw) (hne : pw ≠ "") :
    create_uri st w =
      { res := .ok (.plain ("postgres+pg8000://" ++ fstr st.username ++ ":" ++
          quotePlus pw ++ "@" ++ fstr st.host ++ ":" ++ fstr st.port ++ "/" ++
          st.database), some [("client_encoding", "utf8")], true),
        state := { st with password := some (quotePlus pw) }, trace := [] } := by
  unfold create_uri
  rw [if_neg (by rw [heng]; decide)]
  have hguard : ¬ (truthy st.secret_id ∧ truthy st.secrete_manager_cloud) := by
    rw [hsec]
    simp [truthy]
  have hfetch : fetch_from_secret st w = (none, []) := by
    unfold fetch_from_secret
    rw [if_neg hguard]
  rw [hfetch]
  dsimp only
  have hmerge : mergeSecret st none = st := rfl
  rw [hmerge]
  have henc : encodePassword st = { st with password := some (quotePlus pw) } := by
    unfold encodePassword
    rw [hpw]
    dsimp only
    rw [if_pos hne]
  rw [henc]
  have he2 : ({ st with password := some (quotePlus pw) } : DbState).engine_type
      = "postgres" := heng
  unfold buildUri
  rw [if_neg (by rw [he2]; decide), if_pos he2]
  rfl

/-! ### Claim theorems -/

/-- C1: for engine `postgres` with username `u`, password `p@ss`, host `h`,
port `5432`, database `d` and no secret, `create_uri` returns exactly the
identifier `postgres+pg8000://u:p%40ss@h:5432/d`, the extra options
mapping `client_encoding` to `utf8`, and the dialect-quirk flag `True`; the password
is percent-encoded (and written back to the manager state) before being
embedded. -/
theorem postgres_resolve_literal :
    create_uri pgState noSecretWorld =
      { res := .ok (.plain "postgres+pg8000://u:p%40ss@h:5432/d",
          some [("client_encoding", "utf8")], true),
        state := { pgState with password := some "p%40ss" }, trace := [] } := by
  decide

/-- C2 counterexample: with a secret id set and a fetch that raises
`SecretNotFound`, `create_uri` does not fail: it returns the identifier
built from the caller-supplied explicit parameters, so the claim that the
error propagates and no resolution is produced is false on the code. -/
theorem secret_fetch_failure_not_propagated :
    pgSecretState.secret_id = some "sid"
    ∧ notFoundWorld.fetchResult = .error .secretNotFound
    ∧ (create_uri pgSecretState notFoundWorld).res
        = .ok (.plain "postgres+pg8000://u:p%40ss@h:5432/d",
            some [("client_encoding", "utf8")], true) := by
  decide

/-- C2 amended: a failed secret fetch is caught and swallowed inside
`fetch_from_secret` (manager.py lines 171-173), so `create_uri` behaves
exactly as if the fetch had returned an empty secret: resolution proceeds
with the caller-supplied explicit parameters and no error propagates. -/
theorem secret_fetch_failure_swallowed (st : DbState) (w : ManagerWorld)
    (e : SecretErr) (hw : w.fetchResult = .error e) :
    create_uri st w = create_uri st { w with fetchResult := .ok [] } :=
  fetch_error_create_uri st w e hw

/-- Witness for C2 amended at the concrete failing fetch. -/
theorem secret_fetch_failure_swallowed_witness :
    notFoundWorld.fetchResult = .error .secretNotFound
    ∧ create_uri pgSecretState notFoundWorld
        = create_uri pgSecretState { notFoundWorld with fetchResult := .ok [] } :=
  ⟨rfl, secret_fetch_failure_swallowed pgSecretState notFoundWorld .secretNotFound rfl⟩

/-- C3: the merge block of `create_uri` normalizes the fetched secret keys
to upper case and then, field by field, takes the secret value when the
recognized key is present and keeps the caller-supplied value when it is
absent (`Option.or` of the lookup and the old field). -/
theorem secret_override_fieldwise (st : DbState) (d : PyDict) :
    (applySecret st d).username
        = (lookup (normaize_connection_dict d true) "USERNAME").or st.username
    ∧ (applySecret st d).password
        = (lookup (normaize_connection_dict d true) "PASSWORD").or st.password
    ∧ (applySecret st d).schema
        = (lookup (normaize_connection_dict d true) "SCHEMA").or st.schema
    ∧ (applySecret st d).host
        = (lookup (normaize_connection_dict d true) "HOST").or st.host
    ∧ (applySecret st d).port
        = (lookup (normaize_connection_dict d true) "PORT").or st.port
    ∧ (applySecret st d).snowflake_role
        = (lookup (normaize_connection_dict d true) "SNOWFLAKE_ROLE").or st.snowflake_role
    ∧ (applySecret st d).snowflake_account
        = (lookup (normaize_connection_dict d true) "SNOWFLAKE_ACCOUNT").or st.snowflake_account
    ∧ (applySecret st d).snowflake_warehouse
        = (lookup (normaize_connection_dict d true) "SNOWFLAKE_WAREHOUSE").or
            st.snowflake_warehouse := by
  rw [applySecret_eq]
  exact ⟨rfl, rfl, rfl, rfl, rfl, rfl, rfl, rfl⟩

/-- C4: an engine value outside `SUPPORTED_ENGINE` makes `create_uri` raise
a `ValueError` whose message names the offending value and the supported
list, the manager state is untouched, and the secret fetcher is never
invoked (the trace is empty). -/
theorem unsupported_engine_rejected (st : DbState) (w : ManagerWorld)
    (h : st.engine_type ∉ SUPPORTED_ENGINE) :
    create_uri st w =
      { res := .error (.valueError ("Unsupported engine \x27" ++ st.engine_type ++
          "\x27. Supported are \x27" ++ pyStrList SUPPORTED_ENGINE ++ "\x27")),
        state := st, trace := [] }
    ∧ Ev.fetchSecret ∉ (create_uri st w).trace := by
  have h1 : create_uri st w =
      { res := .error (.valueError ("Unsupported engine \x27" ++ st.engine_type ++
          "\x27. Supported are \x27" ++ pyStrList SUPPORTED_ENGINE ++ "\x27")),
        state := st, trace := [] } := by
    unfold create_uri
    rw [if_pos h]
  refine ⟨h1, ?_⟩
  rw [h1]
  simp

/-- Witness for C4 at engine value `oracle`. -/
theorem unsupported_engine_rejected_witness :
    "oracle" ∉ SUPPORTED_ENGINE
    ∧ create_uri oracleState noSecretWorld =
        { res := .error (.valueError ("Unsupported engine \x27" ++
            oracleState.engine_type ++ "\x27. Supported are \x27" ++
            pyStrList SUPPORTED_ENGINE ++ "\x27")),
          state := oracleState, trace := [] }
    ∧ Ev.fetchSecret ∉ (create_uri oracleState noSecretWorld).trace :=
  ⟨by decide,
    (unsupported_engine_rejected oracleState noSecretWorld (by decide)).1,
    (unsupported_engine_rejected oracleState noSecretWorld (by decide)).2⟩

/-- C5 counterexample: for engine `sqlite`, database `mydb`, path `/tmp`,
the identifier is `sqlite:////tmp/mydb.db` — the scheme-prefixed form of
the joined path — not the bare path `/tmp/mydb.db` the claim states. -/
theorem sqlite_identifier_not_bare_path :
    (create_uri (sqliteState (some "u") (some "p@ss")) noSecretWorld).res
        = .ok (.plain "sqlite:////tmp/mydb.db", none, false)
    ∧ Uri.plain "sqlite:////tmp/mydb.db" ≠ Uri.plain "/tmp/mydb.db" := by
  decide

/-- C5 amended: for engine `sqlite`, database `mydb`, path `/tmp`, the
identifier is exactly `"sqlite:///"` followed by the OS-correct join
`/tmp/mydb.db`, with no extra options and a false dialect flag, and its
value does not depend on the username or password parameters. -/
theorem sqlite_identifier_scheme_prefixed (u p : Option String) (w : ManagerWorld) :
    (create_uri (sqliteState u p) w).res
        = .ok (.plain ("sqlite:///" ++ pathJoin "/tmp" ("mydb" ++ ".db")), none, false)
    ∧ (create_uri (sqliteState u p) w).res
        = .ok (.plain "sqlite:////tmp/mydb.db", none, false) := by
  have h := create_uri_sqlite (sqliteState u p) w rfl
  refine ⟨h, ?_⟩
  rw [h]
  rfl

/-- C6 amended: a bulk write whose dataframe has no rows raises the
`Invalid DataFrame` `ValueError` and performs no database statement, commit
or write; however the `Operations` constructor has already obtained a
session handle from the scoped-session factory before the check, and the
`finally` block closes that handle, so the trace is exactly the acquire and
the close. -/
theorem empty_bulk_write_rejected (sql : Option String) (table_name : Option String)
    (chunk_size : Option Nat) (exist_action : String) (get_df : Bool) (w : OpsWorld) :
    Operations.execute sql (some []) table_name chunk_size exist_action get_df w
      = (.error (.valueError "Invalid DataFrame"), [Ev.acquireSession, Ev.close]) := rfl

/-- C6 counterexample: on the empty-dataframe bulk write the call does fail
with the `ValueError`, but a session handle is acquired from the session
factory before the failure (`Ev.acquireSession` is in the trace), so the
claim that no session is opened before the failure is false on the code. -/
theorem empty_bulk_write_session_acquired :
    (Operations.execute none (some []) (some "t") none "append" false okOpsWorld).1
        = .error (.valueError "Invalid DataFrame")
    ∧ Ev.acquireSession
        ∈ (Operations.execute none (some []) (some "t") none "append" false okOpsWorld).2 := by
  decide

/-- C8 counterexample: when two keys collide after re-casing
(keys `a` and `A` with values `x` and `y`, under `toUpper`), the normalized dict keeps only the
later value, so the output does not have the same values as the input and
the universally quantified claim is false. -/
theorem normalize_collision_loses_value :
    normaize_connection_dict [("a", "x"), ("A", "y")] true = [("A", "y")]
    ∧ "x" ∈ [("a", "x"), ("A", "y")].map Prod.snd
    ∧ "x" ∉ (normaize_connection_dict [("a", "x"), ("A", "y")] true).map Prod.snd := by
  decide

/-- C8 amended: `normaize_connection_dict` is idempotent for every mapping
and flag; when the re-cased keys are collision-free it returns the mapping
with the same values and every key re-cased; and the literal instance
mapping keys `user` and `Pass` to `a` and `b`, under `toUpper`, gives the
mapping of `USER` and `PASS` to `a` and `b`. -/
theorem normalize_idempotent_and_recase (d : PyDict) (b : Bool) :
    normaize_connection_dict (normaize_connection_dict d b) b
      = normaize_connection_dict d b
    ∧ ((d.map (fun p => recase b p.1)).Nodup →
        normaize_connection_dict d b = d.map (fun p => (recase b p.1, p.2)))
    ∧ normaize_connection_dict [("user", "a"), ("Pass", "b")] true
        = [("USER", "a"), ("PASS", "b")] :=
  ⟨normaize_idem d b, fun h => normaize_eq_map d b h, by decide⟩

/-- Witness for C8 amended: the collision-free branch instantiated at the
literal mapping of the spec. -/
theorem normalize_idempotent_and_recase_witness :
    ([("user", "a"), ("Pass", "b")].map
        (fun p : String × String => recase true p.1)).Nodup
    ∧ normaize_connection_dict [("user", "a"), ("Pass", "b")] true
        = [("user", "a"), ("Pass", "b")].map
            (fun p : String × String => (recase true p.1, p.2)) :=
  ⟨by decide,
    (normalize_idempotent_and_recase [("user", "a"), ("Pass", "b")] true).2.1 (by decide)⟩

/-- C9 counterexample: the claim quantifies over every manager whose
password contains a reserved character, but a sqlite manager with password
`p@ss` refutes it: the state still double-encodes, yet the sqlite identifier
never embeds the password, so two successive `create_uri` calls return the
same identifier. -/
theorem sqlite_second_resolve_same_identifier :
    (sqliteState (some "u") (some "p@ss")).password = some "p@ss"
    ∧ ('@' : Char) ∈ ("p@ss" : String).data
    ∧ (create_uri (sqliteState (some "u") (some "p@ss")) noSecretWorld).state.password
        = some "p%40ss"
    ∧ (create_uri ((create_uri (sqliteState (some "u") (some "p@ss")) noSecretWorld).state)
          noSecretWorld).res
        = (create_uri (sqliteState (some "u") (some "p@ss")) noSecretWorld).res := by
  decide

/-- C9 amended: `create_uri` writes the percent-encoded password back into
the manager state for every manager, so resolution is not idempotent over
the state; and for every manager whose engine embeds the password in the
identifier — postgres here — with no secret id and a password containing
the reserved character `@`, two successive calls return different
identifiers, because the second call percent-encodes the already-encoded
password again (the `%` introduced by the first encoding expands to `%25`,
strictly lengthening the embedded password).  Engines whose identifier
ignores the password (such as sqlite) return identical identifiers, as the
counterexample shows. -/
theorem password_reencoded_on_second_resolve (st : DbState) (w : ManagerWorld)
    (pw : String) (heng : st.engine_type = "postgres") (hsec : st.secret_id = none)
    (hpw : st.password = some pw) (hat : ('@' : Char) ∈ pw.data) :
    (create_uri st w).state.password = some (quotePlus pw)
    ∧ (create_uri (create_uri st w).state w).state.password
        = some (quotePlus (quotePlus pw))
    ∧ (create_uri (create_uri st w).state w).res ≠ (create_uri st w).res := by
  have hne : pw ≠ "" := by
    intro he
    rw [he] at hat
    exact absurd hat (by decide)
  have h1 := create_uri_postgres_nosecret st w pw heng hsec hpw hne
  have hne2 : quotePlus pw ≠ "" := quotePlus_ne_empty pw hne
  have h2 : create_uri ({ st with password := some (quotePlus pw) } : DbState) w =
      { res := .ok (.plain ("postgres+pg8000://" ++ fstr st.username ++ ":" ++
          quotePlus (quotePlus pw) ++ "@" ++ fstr st.host ++ ":" ++ fstr st.port ++
          "/" ++ st.database), some [("client_encoding", "utf8")], true),
        state := { st with password := some (quotePlus (quotePlus pw)) },
        trace := [] } :=
    create_uri_postgres_nosecret _ w (quotePlus pw) heng hsec rfl hne2
  rw [h1]
  dsimp only
  rw [h2]
  dsimp only
  refine ⟨rfl, rfl, ?_⟩
  intro heq
  have hlen := congrArg (fun r : Except PyErr (Uri × Option PyDict × Bool) =>
    match r with
    | .ok (.plain s, _, _) => s.length
    | _ => 0) heq
  dsimp only at hlen
  simp only [String.length_append] at hlen
  have hlt : (quotePlus pw).length < (quotePlus (quotePlus pw)).length :=
    quotePlus_data_length_lt (quotePlus pw) (quotePlus_data_ascii pw)
      (percent_mem_quotePlus pw hat)
  omega

/-- Witness for C9 amended at the literal postgres manager with password
`p@ss`: the state holds `p%40ss` after the first call and `p%2540ss` after
the second, and the two identifiers differ. -/
theorem password_reencoded_on_second_resolve_witness :
    (create_uri pgState noSecretWorld).state.password = some "p%40ss"
    ∧ (create_uri (create_uri pgState noSecretWorld).state noSecretWorld).state.password
        = some "p%2540ss"
    ∧ (create_uri (create_uri pgState noSecretWorld).state noSecretWorld).res
        ≠ (create_uri pgState noSecretWorld).res :=
  password_reencoded_on_second_resolve pgState noSecretWorld "p@ss" rfl rfl rfl (by decide)

/-- C7 counterexample: a successful row-returning statement (`SELECT`)
returns its rows without any commit, so the claim that every call to
`Operations.execute` commits before returning is false on the code (only
the close-on-every-exit-path half holds). -/
theorem select_returns_without_commit :
    (Operations.execute (some "SELECT 1") none none none "append" false rowsOpsWorld).1
        = .ok (some (.rows [["r1c1"]]))
    ∧ Ev.commit
        ∉ (Operations.execute (some "SELECT 1") none none none "append" false rowsOpsWorld).2
    ∧ Ev.close
        ∈ (Operations.execute (some "SELECT 1") none none none "append" false rowsOpsWorld).2 := by
  decide

/-- C7 amended: every `Operations.execute` call closes the session on every
exit path (`Ev.close` is the last event of every trace), and it commits
exactly when it performs a successful non-empty bulk write or a successful
plain-SQL execution that returns no rows; row-returning statements and
`read_sql` reads return without committing. -/
theorem execute_close_always_commit_dml (sql : Option String) (panda_df : Option Df)
    (table_name : Option String) (chunk_size : Option Nat) (exist_action : String)
    (get_df : Bool) (w : OpsWorld) :
    ((Operations.execute sql panda_df table_name chunk_size exist_action get_df w).2.getLast?
        = some Ev.close)
    ∧ (Ev.commit ∈ (Operations.execute sql panda_df table_name chunk_size exist_action get_df w).2
        ↔ ((∃ x xs, panda_df = some (x :: xs)) ∧ w.toSqlResult = .ok ())
          ∨ (panda_df = none ∧ truthy sql = true ∧ get_df = false
              ∧ w.sqlExecResult = .ok .noRows)) := by
  unfold Operations.execute
  rcases panda_df with _ | d
  · cases hsq : truthy sql
    · simp [hsq]
    · cases get_df
      · rcases hw : w.sqlExecResult with e | r
        · simp [hsq, hw]
        · rcases r with r | _
          · simp [hsq, hw]
          · simp [hsq, hw]
      · rcases hw : w.readSqlResult with e | r
        · simp [hsq, hw]
        · simp [hsq, hw]
  · rcases d with _ | ⟨x, t⟩
    · simp
    · rcases hw : w.toSqlResult with e | u
      · simp [hw]
      · simp [hw]

/-- Witness for C7 amended: a row-less DML statement commits, and its trace
ends with the close. -/
theorem execute_close_always_commit_dml_witness :
    ((Operations.execute (some "CREATE TABLE t (c INT)") none none none "append" false
        okOpsWorld).2.getLast? = some Ev.close)
    ∧ Ev.commit ∈ (Operations.execute (some "CREATE TABLE t (c INT)") none none none
        "append" false okOpsWorld).2 :=
  ⟨(execute_close_always_commit_dml (some "CREATE TABLE t (c INT)") none none none
      "append" false okOpsWorld).1,
    (execute_close_always_commit_dml (some "CREATE TABLE t (c INT)") none none none
      "append" false okOpsWorld).2.mpr (Or.inr ⟨rfl, by decide, rfl, rfl⟩)⟩

/-- C10: a non-empty dataframe takes strict priority over the `sql`
argument — the call behaves exactly as if `sql` were `None` and never
executes or reads SQL — and a call with no dataframe and no truthy SQL
string raises the `ValueError` instead of silently returning `None`. -/
theorem dataframe_priority_and_empty_error :
    (∀ (x : List String) (t : Df) (sql : Option String) (table_name : Option String)
        (chunk_size : Option Nat) (exist_action : String) (get_df : Bool) (w : OpsWorld),
        Operations.execute sql (some (x :: t)) table_name chunk_size exist_action get_df w
          = Operations.execute none (some (x :: t)) table_name chunk_size exist_action get_df w
        ∧ Ev.executeSql
            ∉ (Operations.execute sql (some (x :: t)) table_name chunk_size exist_action
                get_df w).2
        ∧ Ev.readSql
            ∉ (Operations.execute sql (some (x :: t)) table_name chunk_size exist_action
                get_df w).2)
    ∧ (∀ (sql : Option String) (table_name : Option String) (chunk_size : Option Nat)
        (exist_action : String) (get_df : Bool) (w : OpsWorld),
        (sql = none ∨ sql = some "") →
        (Operations.execute sql none table_name chunk_size exist_action get_df w).1
          = .error (.valueError "No DDL or DML quesries to execute")) := by
  constructor
  · intro x t sql table_name chunk_size exist_action get_df w
    refine ⟨rfl, ?_, ?_⟩
    · unfold Operations.execute
      rcases hw : w.toSqlResult with e | u
      · simp [hw]
      · simp [hw]
    · unfold Operations.execute
      rcases hw : w.toSqlResult with e | u
      · simp [hw]
      · simp [hw]
  · intro sql table_name chunk_size exist_action get_df w h
    rcases h with rfl | rfl
    · rfl
    · rfl

/-- Witness for C10 at a concrete call carrying both a non-empty dataframe
and a SQL string, and a concrete call carrying neither. -/
theorem dataframe_priority_and_empty_error_witness :
    Operations.execute (some "DELETE FROM t") (some [["x"]]) (some "t") none "append" false
        okOpsWorld
      = Operations.execute none (some [["x"]]) (some "t") none "append" false okOpsWorld
    ∧ (Operations.execute none none none none "append" false okOpsWorld).1
        = .error (.valueError "No DDL or DML quesries to execute") :=
  ⟨(dataframe_priority_and_empty_error.1 ["x"] [] (some "DELETE FROM t") (some "t") none
      "append" false okOpsWorld).1,
    dataframe_priority_and_empty_error.2 none none none "append" false okOpsWorld
      (Or.inl rfl)⟩

/-- Witness for C3 at a concrete secret: the lower-case `username` key
overrides the caller value after normalization, and the absent `PORT` key
leaves the caller value in place. -/
theorem secret_override_fieldwise_witness :
    (applySecret pgState [("username", "sec")]).username = some "sec"
    ∧ (applySecret pgState [("username", "sec")]).port = pgState.port :=
  ⟨(secret_override_fieldwise pgState [("username", "sec")]).1.trans (by decide),
    (secret_override_fieldwise pgState [("username", "sec")]).2.2.2.2.1.trans (by decide)⟩

/-- Witness for C5 amended at concrete username and password values. -/
theorem sqlite_identifier_scheme_prefixed_witness :
    (create_uri (sqliteState (some "usr") (some "pw")) noSecretWorld).res
        = .ok (.plain "sqlite:////tmp/mydb.db", none, false) :=
  (sqlite_identifier_scheme_prefixed (some "usr") (some "pw") noSecretWorld).2

/-- Witness for C6 amended at a concrete call that also carries a SQL
string and a get-dataframe flag: the empty dataframe still wins and fails. -/
theorem empty_bulk_write_rejected_witness :
    Operations.execute (some "SELECT 1") (some []) (some "tab") (some 5) "replace" true
        rowsOpsWorld
      = (.error (.valueError "Invalid DataFrame"), [Ev.acquireSession, Ev.close]) :=
  empty_bulk_write_rejected (some "SELECT 1") (some "tab") (some 5) "replace" true rowsOpsWorld
